import Mathlib

set_option maxRecDepth 100000

/-!
Verification of the LiquidLaunch wallet-stats dashboard (`src/src/App.tsx`).

The development shallowly embeds the two logical components of the page:

* the request/validation state machine of `fetchWalletStats` (controller
  state, address validation, the synchronous pre-await segment and the
  response-driven final segment), and
* the card-export operation `downloadStatsImage` (guard, hide/restore
  bracketing of the save button, capture options, download link).

JavaScript `number` values are modelled as `JSNum`: `NaN`, the two
infinities, and finite IEEE-754 binary64 values represented by the exact
rational they denote.  Arithmetic on finite values is exact rational
arithmetic followed by `roundToF64`, correct rounding to the nearest
binary64 value (round-half-even), which is how the runtime evaluates
`parseFloat`, `*` and `/` on doubles in the normal range.  Overflow to the
infinities is modelled in `parseFloat`; subnormal underflow is not
modelled (no value in this development is anywhere near it).
-/

/-- Floor of a rational as an integer (`Int.fdiv` is floor division). -/
def ratFloor (q : ℚ) : ℤ :=
  q.num.fdiv (q.den : ℤ)

/-- Round a rational to the nearest integer, ties to even. -/
def roundHalfEven (x : ℚ) : ℤ :=
  let f := ratFloor x
  let r := x - (f : ℚ)
  if r < 1/2 then f
  else if 1/2 < r then f + 1
  else if f % 2 = 0 then f else f + 1

/-- Base-2 logarithm on naturals (floor), driven by an explicit fuel
argument so that it evaluates by structural recursion. -/
def log2fuel : ℕ → ℕ → ℕ
  | 0, _ => 0
  | fuel + 1, n => if n ≤ 1 then 0 else log2fuel fuel (n / 2) + 1

/-- `natLog2 n` is `⌊log₂ n⌋` for `0 < n` (and `0` at `0`). -/
def natLog2 (n : ℕ) : ℕ :=
  log2fuel n n

/-- For `0 < q`, the unique `k` with `2 ^ k ≤ q < 2 ^ (k + 1)`
(i.e. the floor of the base-2 logarithm). -/
def floorLog2 (q : ℚ) : ℤ :=
  let n := q.num.natAbs
  let d := q.den
  if d ≤ n then (natLog2 (n / d) : ℤ)
  else
    let j := natLog2 (d / n)
    if 1 ≤ q * ((2 ^ j : ℕ) : ℚ) then -(j : ℤ) else -(j : ℤ) - 1

/-- Correctly rounded conversion of an exact rational to the nearest IEEE-754
binary64 value (round to nearest, ties to even), returned as the exact
rational that the binary64 value denotes.  Valid on the normal range, which
covers every number occurring in this development. -/
def roundToF64 (q : ℚ) : ℚ :=
  if q = 0 then 0
  else
    let a := |q|
    let k := floorLog2 a
    let e : ℤ := 52 - k
    let scale : ℚ :=
      if 0 ≤ e then ((2 ^ e.toNat : ℕ) : ℚ) else (((2 ^ (-e).toNat : ℕ) : ℚ))⁻¹
    let m := roundHalfEven (a * scale)
    (if q < 0 then -1 else 1) * (m : ℚ) / scale

/-- The binary64 value of the JavaScript literal `0.01`
(the nearest double to 1/100). -/
def lit0_01 : ℚ :=
  roundToF64 (1/100)

/-- A JavaScript `number`: `NaN`, an infinity, or a finite binary64 value
(represented by the exact rational it denotes). -/
inductive JSNum where
  | nan : JSNum
  | posInf : JSNum
  | negInf : JSNum
  | finite (q : ℚ) : JSNum
deriving DecidableEq

/-- The JavaScript comparison `x >= c` for a `number` `x` against a finite
constant `c` (false whenever `x` is `NaN`). -/
def jsGe (x : JSNum) (c : ℚ) : Bool :=
  match x with
  | .nan => false
  | .posInf => true
  | .negInf => false
  | .finite q => decide (c ≤ q)

/-- JavaScript division of a `number` by a positive finite power-of-ten
constant `c` (the constants `1000` and `1000000` are exact doubles); on a
finite value the quotient is rounded to the nearest binary64. -/
def jsDivConst (x : JSNum) (c : ℚ) : JSNum :=
  match x with
  | .nan => .nan
  | .posInf => .posInf
  | .negInf => .negInf
  | .finite q => .finite (roundToF64 (q / c))

/-- JavaScript multiplication of a `number` by the literal `0.01` (a positive
finite double), rounding the product of finite values to the nearest
binary64. -/
def jsMul0_01 (x : JSNum) : JSNum :=
  match x with
  | .nan => .nan
  | .posInf => .posInf
  | .negInf => .negInf
  | .finite q => .finite (roundToF64 (q * lit0_01))

/-- Decimal digits of a natural number, padded to two places. -/
def twoDigitString (n : ℕ) : String :=
  (if n % 100 < 10 then "0" else "") ++ toString (n % 100)

/-- `Number.prototype.toFixed(2)`: `"NaN"` on `NaN`, the infinity strings on
the infinities, and otherwise the sign followed by the integer `n`
minimising the distance of `n / 100` to the magnitude (ties towards the
larger `n`, i.e. half-up on the magnitude), printed with two decimals. -/
def toFixed2 (x : JSNum) : String :=
  match x with
  | .nan => "NaN"
  | .posInf => "Infinity"
  | .negInf => "-Infinity"
  | .finite q =>
      let sgn := if q < 0 then "-" else ""
      let n := (ratFloor (|q| * 100 + 1/2)).toNat
      sgn ++ toString (n / 100) ++ "." ++ twoDigitString n

/-- The set of characters skipped or trimmed as whitespace by the JavaScript
runtime (WhiteSpace and LineTerminator code points). -/
def jsWhitespaceChar (c : Char) : Bool :=
  c == ' ' || c == '\t' || c == '\n' || c == '\r' ||
  c.toNat == 11 || c.toNat == 12 || c.toNat == 160 ||
  c.toNat == 0x1680 || c.toNat == 0x2028 || c.toNat == 0x2029 ||
  c.toNat == 0x202F || c.toNat == 0x205F || c.toNat == 0x3000 ||
  c.toNat == 0xFEFF || (0x2000 ≤ c.toNat && c.toNat ≤ 0x200A)

/-- String.prototype.trim: remove leading and trailing whitespace. -/
def jsTrim (s : String) : String :=
  String.mk (((s.data.dropWhile jsWhitespaceChar).reverse.dropWhile
    jsWhitespaceChar).reverse)

/-- Numeric value of a decimal digit character, `none` otherwise. -/
def digitVal (c : Char) : Option ℕ :=
  if 48 ≤ c.toNat ∧ c.toNat ≤ 57 then some (c.toNat - 48) else none

/-- Consume leading decimal digits: returns their value, their count, and the
remaining characters. -/
def readDigits : List Char → ℕ → ℕ → ℕ × ℕ × List Char
  | [], acc, cnt => (acc, cnt, [])
  | c :: cs, acc, cnt =>
      match digitVal c with
      | some d => readDigits cs (acc * 10 + d) (cnt + 1)
      | none => (acc, cnt, c :: cs)

/-- Consume an optional sign; returns whether the value is negated and the
remaining characters. -/
def readSign : List Char → Bool × List Char
  | '-' :: cs => (true, cs)
  | '+' :: cs => (false, cs)
  | cs => (false, cs)

/-- Ten to an integer power, as a rational. -/
def tenPow (e : ℤ) : ℚ :=
  if 0 ≤ e then ((10 ^ e.toNat : ℕ) : ℚ) else (((10 ^ (-e).toNat : ℕ) : ℚ))⁻¹

/-- Exponent denoted by an optional `e`/`E` suffix; a missing or malformed
suffix contributes exponent `0` (the runtime ignores it and keeps the
mantissa, since it parses the longest numeric-literal head of the string). -/
def readExpPart (cs : List Char) : ℤ :=
  match cs with
  | c :: cs1 =>
      if c == 'e' || c == 'E' then
        let (neg, cs2) := readSign cs1
        let (v, cnt, _) := readDigits cs2 0 0
        if cnt == 0 then 0 else if neg then -(v : ℤ) else (v : ℤ)
      else 0
  | [] => 0

/-- Exact rational value of the longest unsigned decimal-literal head of a
character list (`digits [. digits] [exponent]`, at least one digit), or
`none` when no such head exists. -/
def readDecHead (cs : List Char) : Option ℚ :=
  let (ipart, icnt, r1) := readDigits cs 0 0
  match r1 with
  | '.' :: r2 =>
      let (fpart, fcnt, r3) := readDigits r2 0 0
      if icnt + fcnt == 0 then none
      else
        some ((((ipart : ℚ) + (fpart : ℚ) / ((10 ^ fcnt : ℕ) : ℚ))) *
          tenPow (readExpPart r3))
  | _ =>
      if icnt == 0 then none
      else some ((ipart : ℚ) * tenPow (readExpPart r1))

/-- The JavaScript global `parseFloat`: skip leading whitespace, read an
optional sign, accept the `Infinity` literal, otherwise read the longest
decimal-literal head and round its exact value to the nearest binary64
(overflowing to the infinities); `NaN` when no numeric head exists. -/
def parseFloat (v : String) : JSNum :=
  let cs := v.data.dropWhile jsWhitespaceChar
  let (neg, cs1) := readSign cs
  if cs1.take 8 == "Infinity".data then
    (if neg then .negInf else .posInf)
  else
    match readDecHead cs1 with
    | none => .nan
    | some q =>
        let r := roundToF64 (if neg then -q else q)
        if ((2 ^ 1024 : ℕ) : ℚ) ≤ |r| then (if neg then .negInf else .posInf)
        else .finite r

/-- Argument type of `formatNumber` in the source
(`num: number | string`). -/
inductive NumOrStr where
  | ofNum (x : JSNum) : NumOrStr
  | ofStr (v : String) : NumOrStr

/-- Body of `formatNumber` after the string case has been reduced to a
`number`: `(number / 1000000).toFixed(2) + "M"` when `number >= 1000000`,
`(number / 1000).toFixed(2) + "K"` when `number >= 1000`, otherwise
`number.toFixed(2)` (App.tsx lines 38-43). -/
def formatNumberCore (number : JSNum) : String :=
  if jsGe number 1000000 then toFixed2 (jsDivConst number 1000000) ++ "M"
  else if jsGe number 1000 then toFixed2 (jsDivConst number 1000) ++ "K"
  else toFixed2 number

/-- `formatNumber` (App.tsx lines 36-44): a string argument goes through
`parseFloat` first, then the abbreviation body runs on the `number`. -/
def formatNumber (num : NumOrStr) : String :=
  match num with
  | .ofStr v => formatNumberCore (parseFloat v)
  | .ofNum x => formatNumberCore x


/-- A JSON value, as produced by `response.json()`. -/
inductive Json where
  | null : Json
  | bool (b : Bool) : Json
  | str (s : String) : Json
  | num (q : ℚ) : Json
  | arr (elems : List Json) : Json
  | obj (fields : List (String × Json)) : Json

/-- Controller state of the `App` component: the four `useState` hooks that
`fetchWalletStats` reads or writes (App.tsx lines 25-28).  The payload stored
by `setStats(data)` is the raw parsed JSON value, since the code performs no
runtime shape validation. -/
structure AppState where
  walletAddress : String
  stats : Option Json
  loading : Bool
  error : String

/-- Initial hook values: `useState("")`, `useState(null)`, `useState(false)`,
`useState("")` (App.tsx lines 25-28). -/
def initialAppState : AppState :=
  { walletAddress := "", stats := none, loading := false, error := "" }

/-- Decimal or hexadecimal-letter test used by the address pattern:
`[a-fA-F0-9]`. -/
def isHexDigitChar (c : Char) : Bool :=
  (48 ≤ c.toNat && c.toNat ≤ 57) ||
  (97 ≤ c.toNat && c.toNat ≤ 102) ||
  (65 ≤ c.toNat && c.toNat ≤ 70)

/-- `isValidAddress` (App.tsx lines 32-34): the anchored regular expression
test `/^0x[a-fA-F0-9]{40}$/.test(address)`. -/
def isValidAddress (address : String) : Bool :=
  match address.data with
  | '0' :: 'x' :: rest => rest.length == 40 && rest.all isHexDigitChar
  | _ => false

/-- Result of awaiting `response.json()` on a 2xx response: either the parse
rejects (a `SyntaxError`, an `Error` carrying a message) or it yields a JSON
value. -/
inductive BodyResult where
  | parseFailed (msg : String) : BodyResult
  | parsed (data : Json) : BodyResult

/-- Outcome of the awaited `fetch` call: the promise rejects with an `Error`
carrying a message (network-level failure), or a response arrives with its
`ok` flag and body. -/
inductive FetchResult where
  | netError (msg : String) : FetchResult
  | response (ok : Bool) (body : BodyResult) : FetchResult

/-- Observable trace of one `fetchWalletStats()` call: the controller state
after the synchronous segment (everything before `await fetch` — on the
rejected paths no await happens and this equals the final state), the list
of request URLs issued, and the state after the handler has fully settled. -/
structure SubmitTrace where
  preAwait : AppState
  requests : List String
  final : AppState

/-- The collaborator endpoint keyed by an address (App.tsx line 71). -/
def apiUrl (addr : String) : String :=
  "https://donkey-api.liquidlaunch.app/api/wallet/" ++ addr

/-- `fetchWalletStats` (App.tsx lines 54-85), as a function of the starting
state and the supplied fetch outcome.  An empty trimmed address sets the
error `"Please enter a wallet address"` and returns; a trimmed address
failing `isValidAddress` sets `"Please enter a valid Ethereum wallet
address"` and returns; otherwise `setLoading(true)`, `setError("")`,
`setStats(null)` run, one request to `apiUrl` of the trimmed address is
issued, and the response is dispatched inside `try/catch/finally`: a non-ok
status throws `Error("Failed to fetch wallet statistics")`, every caught
error's message lands in `error`, a parsed body lands in `stats` unchecked,
and `finally` clears `loading`. -/
def fetchWalletStats (s : AppState) (res : FetchResult) : SubmitTrace :=
  let trimmed := jsTrim s.walletAddress
  if trimmed = "" then
    let s1 := { s with error := "Please enter a wallet address" }
    { preAwait := s1, requests := [], final := s1 }
  else if ¬ isValidAddress trimmed then
    let s1 := { s with error := "Please enter a valid Ethereum wallet address" }
    { preAwait := s1, requests := [], final := s1 }
  else
    let mid := { s with loading := true, error := "", stats := none }
    let fin :=
      match res with
      | .netError m => { mid with loading := false, error := m }
      | .response false _ =>
          { mid with loading := false, error := "Failed to fetch wallet statistics" }
      | .response true (.parseFailed m) => { mid with loading := false, error := m }
      | .response true (.parsed d) => { mid with loading := false, stats := some d }
    { preAwait := mid, requests := [apiUrl trimmed], final := fin }

/-- The typed shape the source declares for the payload
(`interface WalletStats`, App.tsx lines 14-22). -/
structure WalletStats where
  address : String
  total_volume : String
  total_trades : ℤ
  buy_count : ℤ
  sell_count : ℤ
  first_trade : ℤ
  last_trade : ℤ

/-- First match for a key in a JSON object field list. -/
def lookupField (fields : List (String × Json)) (k : String) : Option Json :=
  match fields with
  | [] => none
  | (k1, v) :: rest => if k1 = k then some v else lookupField rest k

/-- Whether an optional JSON value is present and a string. -/
def isStrField (v : Option Json) : Bool :=
  match v with
  | some (Json.str _) => true
  | _ => false

/-- Whether an optional JSON value is present and a number. -/
def isNumField (v : Option Json) : Bool :=
  match v with
  | some (Json.num _) => true
  | _ => false

/-- Modelled from the spec: the expected `WalletStats` payload shape (§3 and
§6 — `address` string, `total_volume` decimal string, and the five numeric
fields; additional fields may be present and are ignored).  The source
performs no such runtime check — this definition exists to state what the
spec's "payload that cannot be parsed as the expected shape" refers to. -/
def isWalletStatsShape (j : Json) : Bool :=
  match j with
  | Json.obj fs =>
      isStrField (lookupField fs "address") &&
      isStrField (lookupField fs "total_volume") &&
      isNumField (lookupField fs "total_trades") &&
      isNumField (lookupField fs "buy_count") &&
      isNumField (lookupField fs "sell_count") &&
      isNumField (lookupField fs "first_trade") &&
      isNumField (lookupField fs "last_trade")
  | _ => false

/-- State read or written by `downloadStatsImage`: the loaded stats (typed as
the source's `WalletStats` interface), whether `statsCardRef.current` is
mounted, whether the `[data-save-button]` query finds the save button, that
button's inline `style.display`, the `isGeneratingImage` flag, the card's
current pixel dimensions, and the controller's error banner (which the
export never touches). -/
structure ExportState where
  stats : Option WalletStats
  cardMounted : Bool
  buttonFound : Bool
  buttonDisplay : String
  isGeneratingImage : Bool
  offsetWidth : ℕ
  offsetHeight : ℕ
  error : String

/-- Outcome of awaiting `html2canvas(...)`: the promise resolves with a
canvas or rejects. -/
inductive CaptureOutcome where
  | success : CaptureOutcome
  | failure : CaptureOutcome

/-- The options object passed to `html2canvas` (App.tsx lines 106-113). -/
structure CaptureOpts where
  backgroundColor : String
  scale : ℕ
  useCORS : Bool
  allowTaint : Bool
  width : ℕ
  height : ℕ

/-- An anchor-click download: the `download` filename and the MIME type of
the `href` data URL. -/
structure DownloadLink where
  filename : String
  mime : String

/-- Observable trace of one `downloadStatsImage()` call: the final state, the
rasterization requests issued to `html2canvas`, the triggered downloads, and
whether `console.error` ran. -/
structure ExportTrace where
  final : ExportState
  captures : List CaptureOpts
  downloads : List DownloadLink
  loggedError : Bool

/-- `String.prototype.slice(0, 8)`. -/
def jsSliceTo8 (s : String) : String :=
  String.mk (s.data.take 8)

/-- `downloadStatsImage` (App.tsx lines 92-129) as a function of the start
state and the capture outcome.  Guard: `if (!statsCardRef.current || !stats)
return;`.  Then `setIsGeneratingImage(true)`, the save button (if found) is
hidden with `display = "none"`, `html2canvas` runs on the card with a black
background at `scale: 2` and the card's current dimensions; on success an
anchor named `wallet-stats-<address.slice(0,8)>.png` with an `image/png`
data URL is clicked; a rejection is caught and logged with `console.error`;
`finally` restores `display = "flex"` on the found button and clears
`isGeneratingImage`. -/
def downloadStatsImage (s : ExportState) (cap : CaptureOutcome) : ExportTrace :=
  match s.stats with
  | none => { final := s, captures := [], downloads := [], loggedError := false }
  | some stats =>
      if ¬ s.cardMounted then
        { final := s, captures := [], downloads := [], loggedError := false }
      else
        let s1 := { s with isGeneratingImage := true }
        let s2 := if s1.buttonFound then { s1 with buttonDisplay := "none" } else s1
        let opts : CaptureOpts :=
          { backgroundColor := "#000000", scale := 2, useCORS := true,
            allowTaint := true, width := s.offsetWidth, height := s.offsetHeight }
        let restore := fun (st : ExportState) =>
          let st1 := if st.buttonFound then { st with buttonDisplay := "flex" } else st
          { st1 with isGeneratingImage := false }
        match cap with
        | .success =>
            let link : DownloadLink :=
              { filename := "wallet-stats-" ++ jsSliceTo8 stats.address ++ ".png",
                mime := "image/png" }
            { final := restore s2, captures := [opts], downloads := [link],
              loggedError := false }
        | .failure =>
            { final := restore s2, captures := [opts], downloads := [],
              loggedError := true }

/-- The estimated-fee cell of the volume card (App.tsx line 248):
`formatNumber(parseFloat(stats.total_volume) * 0.01)`. -/
def feeDisplay (stats : WalletStats) : String :=
  formatNumber (.ofNum (jsMul0_01 (parseFloat stats.total_volume)))

/-- Modelled from the spec's words (§4.1): `formatNumber(x)` "abbreviate to
two decimal places with suffix `K` for magnitude ≥ 1,000 and < 1,000,000
(value divided by 1,000), `M` for magnitude ≥ 1,000,000 (value divided by
1,000,000), otherwise the value itself to two decimal places" — thresholds
on the magnitude and exact division, for comparison with the source's
`formatNumber`. -/
def specFormatNumber (q : ℚ) : String :=
  if 1000000 ≤ |q| then toFixed2 (.finite (q / 1000000)) ++ "M"
  else if 1000 ≤ |q| then toFixed2 (.finite (q / 1000)) ++ "K"
  else toFixed2 (.finite q)

/-- Exact (arbitrary-precision) value of a full decimal string:
optional sign, digits, optional point and digits, nothing else. -/
def exactDecimal (v : String) : Option ℚ :=
  let (neg, cs) := readSign v.data
  let (ipart, icnt, r1) := readDigits cs 0 0
  let sgn : ℚ := if neg then -1 else 1
  match r1 with
  | [] => if icnt == 0 then none else some (sgn * (ipart : ℚ))
  | '.' :: r2 =>
      let (fpart, fcnt, r3) := readDigits r2 0 0
      if icnt + fcnt == 0 then none
      else if r3.isEmpty then
        some (sgn * ((ipart : ℚ) + (fpart : ℚ) / ((10 ^ fcnt : ℕ) : ℚ)))
      else none
  | _ => none

/-- Modelled from the spec's words (§4.1, §3): `estimatedFee(total_volume)` =
"total_volume × 0.01, formatted with the same abbreviation rule", with
`total_volume` a "decimal string — arbitrary precision, must be parsed, not
assumed to fit a native float exactly"; for comparison with the source's
rendered fee. -/
def specEstimatedFee (total_volume : String) : Option String :=
  match exactDecimal total_volume with
  | none => none
  | some q => some (specFormatNumber (q / 100))

/-- A fetch outcome the source treats as a failure, with the message the
handler ends up storing: a rejected fetch keeps the rejection's message, a
non-ok status yields the thrown `"Failed to fetch wallet statistics"`, and a
body-parse rejection keeps its message; a parsed body is not a failure. -/
def failMessage (res : FetchResult) : Option String :=
  match res with
  | .netError m => some m
  | .response false _ => some "Failed to fetch wallet statistics"
  | .response true (.parseFailed m) => some m
  | .response true (.parsed _) => none

/-- The 42-character all-`a` test address. -/
def addrAAAA : String :=
  "0xaaaaaaaaaaaaaaaaaaaaaaaaaaaaaaaaaaaaaaaa"

/-- The all-`a` test address preceded by a space: it does not match the
anchored address pattern, but its trimmed form does. -/
def paddedAddrAAAA : String :=
  " 0xaaaaaaaaaaaaaaaaaaaaaaaaaaaaaaaaaaaaaaaa"

/-- An example loaded `WalletStats` payload (the README example address). -/
def exampleStats : WalletStats :=
  { address := "0x1234567890abcdef1234567890abcdef12345678",
    total_volume := "824.309202265870747275", total_trades := 142,
    buy_count := 85, sell_count := 57,
    first_trade := 1704067200, last_trade := 1749666804 }

/-- A valid address is in particular nonempty. -/
theorem isValidAddress_ne_empty (a : String) (h : isValidAddress a = true) :
    a ≠ "" := by
  intro he
  subst he
  simp [isValidAddress] at h

/-- C1: on a state whose trimmed input is a valid address, `fetchWalletStats`
enters the loading state with the previously stored stats and the previous
error both cleared before the response resolves, and issues exactly one
request, keyed by the trimmed address. -/
theorem submit_valid_loads_and_requests_once (s : AppState) (res : FetchResult)
    (h : isValidAddress (jsTrim s.walletAddress) = true) :
    (fetchWalletStats s res).preAwait.loading = true ∧
    (fetchWalletStats s res).preAwait.stats = none ∧
    (fetchWalletStats s res).preAwait.error = "" ∧
    (fetchWalletStats s res).requests = [apiUrl (jsTrim s.walletAddress)] := by
  have hne : jsTrim s.walletAddress ≠ "" := isValidAddress_ne_empty _ h
  simp [fetchWalletStats, hne, h]

/-- C1 witness: a concrete run from a state holding previous stats and a
previous error. -/
theorem submit_valid_loads_and_requests_once_witness :
    (fetchWalletStats
        { walletAddress := addrAAAA, stats := some (Json.obj []),
          loading := false, error := "old error" }
        (.response true (.parsed Json.null))).preAwait.loading = true ∧
    (fetchWalletStats
        { walletAddress := addrAAAA, stats := some (Json.obj []),
          loading := false, error := "old error" }
        (.response true (.parsed Json.null))).preAwait.stats = none ∧
    (fetchWalletStats
        { walletAddress := addrAAAA, stats := some (Json.obj []),
          loading := false, error := "old error" }
        (.response true (.parsed Json.null))).preAwait.error = "" ∧
    (fetchWalletStats
        { walletAddress := addrAAAA, stats := some (Json.obj []),
          loading := false, error := "old error" }
        (.response true (.parsed Json.null))).requests =
      [apiUrl (jsTrim addrAAAA)] :=
  submit_valid_loads_and_requests_once
    { walletAddress := addrAAAA, stats := some (Json.obj []),
      loading := false, error := "old error" }
    (.response true (.parsed Json.null)) (by decide!)

/-- C2 counterexample: the claim requires that a payload which cannot be
parsed as the expected `WalletStats` shape sends the controller to the
failed state with no stats stored.  The source never validates the shape:
on a 2xx response whose body parses as the JSON object `{}` — which is not
of the `WalletStats` shape — the handler stores that object as the stats
and leaves the error empty, i.e. it ends loaded, not failed. -/
theorem submit_stores_unvalidated_payload :
    isWalletStatsShape (Json.obj []) = false ∧
    ((fetchWalletStats
        { walletAddress := addrAAAA, stats := none, loading := false, error := "" }
        (.response true (.parsed (Json.obj [])))).final.stats).isSome = true ∧
    (fetchWalletStats
        { walletAddress := addrAAAA, stats := none, loading := false, error := "" }
        (.response true (.parsed (Json.obj [])))).final.error = "" := by
  refine ⟨rfl, ?_, ?_⟩ <;> decide!

/-- C2 amended: on a valid address, every failure the handler can actually
see — a rejected fetch, a non-ok status, or a body that is not valid JSON —
ends with the failure's message stored, no stats, and loading cleared (the
handler is a total function here: no exception escapes it).  A body that
parses as any JSON value is stored without shape validation, so shape
mismatches are not failure outcomes. -/
theorem submit_failure_ends_failed (s : AppState) (res : FetchResult) (m : String)
    (hv : isValidAddress (jsTrim s.walletAddress) = true)
    (hf : failMessage res = some m) (hm : m ≠ "") :
    (fetchWalletStats s res).final.error = m ∧
    (fetchWalletStats s res).final.error ≠ "" ∧
    (fetchWalletStats s res).final.stats = none ∧
    (fetchWalletStats s res).final.loading = false := by
  have hne : jsTrim s.walletAddress ≠ "" := isValidAddress_ne_empty _ hv
  cases res with
  | netError m1 =>
      simp only [failMessage, Option.some.injEq] at hf
      subst hf
      simp [fetchWalletStats, hne, hv, hm]
  | response ok body =>
      cases ok with
      | false =>
          simp only [failMessage, Option.some.injEq] at hf
          subst hf
          simp [fetchWalletStats, hne, hv, hm]
      | true =>
          cases body with
          | parseFailed m1 =>
              simp only [failMessage, Option.some.injEq] at hf
              subst hf
              simp [fetchWalletStats, hne, hv, hm]
          | parsed d => simp [failMessage] at hf

/-- C2 amended witness: a concrete non-ok response on a valid address. -/
theorem submit_failure_ends_failed_witness :
    (fetchWalletStats
        { walletAddress := addrAAAA, stats := some (Json.obj []),
          loading := false, error := "" }
        (.response false (.parsed Json.null))).final.error =
      "Failed to fetch wallet statistics" ∧
    (fetchWalletStats
        { walletAddress := addrAAAA, stats := some (Json.obj []),
          loading := false, error := "" }
        (.response false (.parsed Json.null))).final.error ≠ "" ∧
    (fetchWalletStats
        { walletAddress := addrAAAA, stats := some (Json.obj []),
          loading := false, error := "" }
        (.response false (.parsed Json.null))).final.stats = none ∧
    (fetchWalletStats
        { walletAddress := addrAAAA, stats := some (Json.obj []),
          loading := false, error := "" }
        (.response false (.parsed Json.null))).final.loading = false :=
  submit_failure_ends_failed
    { walletAddress := addrAAAA, stats := some (Json.obj []),
      loading := false, error := "" }
    (.response false (.parsed Json.null)) "Failed to fetch wallet statistics"
    (by decide!) rfl (by decide)

/-- C3 counterexample: the claim quantifies over input strings that do not
match `^0x[0-9a-fA-F]{40}$` and demands a rejection with no network call.
The source validates the TRIMMED input: on the input consisting of a space
followed by a valid address — a string the anchored pattern rejects — the
handler issues a network request instead of rejecting. -/
theorem submit_unmatched_input_still_requests :
    isValidAddress paddedAddrAAAA = false ∧
    (fetchWalletStats
        { walletAddress := paddedAddrAAAA, stats := none, loading := false,
          error := "" }
        (.response false (.parsed Json.null))).requests = [apiUrl addrAAAA] ∧
    (fetchWalletStats
        { walletAddress := paddedAddrAAAA, stats := none, loading := false,
          error := "" }
        (.response false (.parsed Json.null))).final.error ≠
      "Please enter a wallet address" ∧
    (fetchWalletStats
        { walletAddress := paddedAddrAAAA, stats := none, loading := false,
          error := "" }
        (.response false (.parsed Json.null))).final.error ≠
      "Please enter a valid Ethereum wallet address" := by
  refine ⟨rfl, ?_, ?_, ?_⟩ <;> decide!

/-- C3 amended: on every input whose TRIMMED form does not match the address
pattern (including the empty and all-whitespace inputs), the handler stores
one of the two rejection messages, issues no network call, and leaves the
stored stats and the loading flag untouched. -/
theorem submit_invalid_rejected_no_request (s : AppState) (res : FetchResult)
    (h : isValidAddress (jsTrim s.walletAddress) = false) :
    (fetchWalletStats s res).requests = [] ∧
    ((fetchWalletStats s res).final.error = "Please enter a wallet address" ∨
      (fetchWalletStats s res).final.error =
        "Please enter a valid Ethereum wallet address") ∧
    (fetchWalletStats s res).final.stats = s.stats ∧
    (fetchWalletStats s res).final.loading = s.loading := by
  by_cases he : jsTrim s.walletAddress = ""
  · simp [fetchWalletStats, he]
  · simp [fetchWalletStats, he, h]

/-- C3 amended witness: a concrete run on the input `"hello"`. -/
theorem submit_invalid_rejected_no_request_witness :
    (fetchWalletStats
        { walletAddress := "hello", stats := none, loading := false, error := "" }
        (.response true (.parsed Json.null))).requests = [] ∧
    ((fetchWalletStats
        { walletAddress := "hello", stats := none, loading := false, error := "" }
        (.response true (.parsed Json.null))).final.error =
        "Please enter a wallet address" ∨
      (fetchWalletStats
        { walletAddress := "hello", stats := none, loading := false, error := "" }
        (.response true (.parsed Json.null))).final.error =
        "Please enter a valid Ethereum wallet address") ∧
    (fetchWalletStats
        { walletAddress := "hello", stats := none, loading := false, error := "" }
        (.response true (.parsed Json.null))).final.stats =
      ({ walletAddress := "hello", stats := none, loading := false,
         error := "" } : AppState).stats ∧
    (fetchWalletStats
        { walletAddress := "hello", stats := none, loading := false, error := "" }
        (.response true (.parsed Json.null))).final.loading =
      ({ walletAddress := "hello", stats := none, loading := false,
         error := "" } : AppState).loading :=
  submit_invalid_rejected_no_request
    { walletAddress := "hello", stats := none, loading := false, error := "" }
    (.response true (.parsed Json.null)) (by decide!)

/-- C4 counterexample: the claim asserts that after ANY completed submission
at most one of the error message and the stored stats is populated.  The
rejected branches of `fetchWalletStats` set the error without clearing the
stats: submitting the invalid input `"foo"` from a state that still holds
loaded stats ends with the rejection message stored AND the old stats still
present. -/
theorem submit_rejected_keeps_stats_and_error :
    (fetchWalletStats
        { walletAddress := "foo",
          stats := some (Json.obj [("address", Json.str addrAAAA)]),
          loading := false, error := "" }
        (.response true (.parsed Json.null))).final.error =
      "Please enter a valid Ethereum wallet address" ∧
    ((fetchWalletStats
        { walletAddress := "foo",
          stats := some (Json.obj [("address", Json.str addrAAAA)]),
          loading := false, error := "" }
        (.response true (.parsed Json.null))).final.stats).isSome = true := by
  refine ⟨?_, ?_⟩ <;> decide!

/-- C4 amended: the at-most-one invariant does hold before the first
submission and around every completed FETCH: initially both fields are
empty, on a valid trimmed address both are empty while the request is in
flight, and whatever the response, the settled state has the error empty or
the stats absent.  A rejected submission, however, preserves the previous
stats while setting an error, so both can be populated after it. -/
theorem submit_fetch_invariant (s : AppState) (res : FetchResult)
    (h : isValidAddress (jsTrim s.walletAddress) = true) :
    (initialAppState.error = "" ∧ initialAppState.stats = none) ∧
    ((fetchWalletStats s res).preAwait.error = "" ∧
      (fetchWalletStats s res).preAwait.stats = none) ∧
    ((fetchWalletStats s res).final.error = "" ∨
      (fetchWalletStats s res).final.stats = none) := by
  have hne : jsTrim s.walletAddress ≠ "" := isValidAddress_ne_empty _ h
  refine ⟨⟨rfl, rfl⟩, ?_, ?_⟩
  · simp [fetchWalletStats, hne, h]
  · cases res with
    | netError m => simp [fetchWalletStats, hne, h]
    | response ok body =>
        cases ok with
        | false => simp [fetchWalletStats, hne, h]
        | true => cases body <;> simp [fetchWalletStats, hne, h]

/-- C4 amended witness: a concrete successful fetch from a state that held a
previous error. -/
theorem submit_fetch_invariant_witness :
    (initialAppState.error = "" ∧ initialAppState.stats = none) ∧
    ((fetchWalletStats
        { walletAddress := addrAAAA, stats := none, loading := false,
          error := "previous error" }
        (.response true (.parsed (Json.obj [])))).preAwait.error = "" ∧
      (fetchWalletStats
        { walletAddress := addrAAAA, stats := none, loading := false,
          error := "previous error" }
        (.response true (.parsed (Json.obj [])))).preAwait.stats = none) ∧
    ((fetchWalletStats
        { walletAddress := addrAAAA, stats := none, loading := false,
          error := "previous error" }
        (.response true (.parsed (Json.obj [])))).final.error = "" ∨
      (fetchWalletStats
        { walletAddress := addrAAAA, stats := none, loading := false,
          error := "previous error" }
        (.response true (.parsed (Json.obj [])))).final.stats = none) :=
  submit_fetch_invariant
    { walletAddress := addrAAAA, stats := none, loading := false,
      error := "previous error" }
    (.response true (.parsed (Json.obj []))) (by decide!)

/-- C5: on a rendered card (stats loaded, card node mounted, save button
present), whatever the capture outcome, the save button's visibility is
restored (`display = "flex"`) and the in-progress flag is cleared in the
final state; a capture fault is caught and logged via `console.error`,
produces no download, and no error state visible to the rest of the UI
changes (the error banner and the stats are untouched). -/
theorem export_restores_button_and_flag (s : ExportState) (ws : WalletStats)
    (cap : CaptureOutcome) (h1 : s.stats = some ws) (h2 : s.cardMounted = true)
    (h3 : s.buttonFound = true) :
    (downloadStatsImage s cap).final.buttonDisplay = "flex" ∧
    (downloadStatsImage s cap).final.isGeneratingImage = false ∧
    (downloadStatsImage s cap).final.error = s.error ∧
    (downloadStatsImage s cap).final.stats = s.stats ∧
    (cap = .failure →
      (downloadStatsImage s cap).loggedError = true ∧
      (downloadStatsImage s cap).downloads = []) := by
  cases cap <;> simp [downloadStatsImage, h1, h2, h3]

/-- C5 witness: a concrete failing capture on a rendered card. -/
theorem export_restores_button_and_flag_witness :
    (downloadStatsImage
        { stats := some exampleStats, cardMounted := true, buttonFound := true,
          buttonDisplay := "", isGeneratingImage := false, offsetWidth := 672,
          offsetHeight := 480, error := "" } .failure).final.buttonDisplay =
      "flex" ∧
    (downloadStatsImage
        { stats := some exampleStats, cardMounted := true, buttonFound := true,
          buttonDisplay := "", isGeneratingImage := false, offsetWidth := 672,
          offsetHeight := 480, error := "" } .failure).final.isGeneratingImage =
      false ∧
    (downloadStatsImage
        { stats := some exampleStats, cardMounted := true, buttonFound := true,
          buttonDisplay := "", isGeneratingImage := false, offsetWidth := 672,
          offsetHeight := 480, error := "" } .failure).final.error =
      ({ stats := some exampleStats, cardMounted := true, buttonFound := true,
         buttonDisplay := "", isGeneratingImage := false, offsetWidth := 672,
         offsetHeight := 480, error := "" } : ExportState).error ∧
    (downloadStatsImage
        { stats := some exampleStats, cardMounted := true, buttonFound := true,
          buttonDisplay := "", isGeneratingImage := false, offsetWidth := 672,
          offsetHeight := 480, error := "" } .failure).final.stats =
      ({ stats := some exampleStats, cardMounted := true, buttonFound := true,
         buttonDisplay := "", isGeneratingImage := false, offsetWidth := 672,
         offsetHeight := 480, error := "" } : ExportState).stats ∧
    (CaptureOutcome.failure = CaptureOutcome.failure →
      (downloadStatsImage
          { stats := some exampleStats, cardMounted := true, buttonFound := true,
            buttonDisplay := "", isGeneratingImage := false, offsetWidth := 672,
            offsetHeight := 480, error := "" } .failure).loggedError = true ∧
      (downloadStatsImage
          { stats := some exampleStats, cardMounted := true, buttonFound := true,
            buttonDisplay := "", isGeneratingImage := false, offsetWidth := 672,
            offsetHeight := 480, error := "" } .failure).downloads = []) :=
  export_restores_button_and_flag
    { stats := some exampleStats, cardMounted := true, buttonFound := true,
      buttonDisplay := "", isGeneratingImage := false, offsetWidth := 672,
      offsetHeight := 480, error := "" } exampleStats .failure rfl rfl rfl

/-- C8: a successful export issues exactly one rasterization request — on the
card node at its current pixel dimensions, with `scale: 2` (doubled
resolution) and the solid black `#000000` backdrop — and triggers exactly
one download: an `image/png` data URL saved as
`wallet-stats-<first 8 characters of the loaded stats' address>.png`. -/
theorem export_success_artifact (s : ExportState) (ws : WalletStats)
    (h1 : s.stats = some ws) (h2 : s.cardMounted = true) :
    (downloadStatsImage s .success).captures =
      [{ backgroundColor := "#000000", scale := 2, useCORS := true,
         allowTaint := true, width := s.offsetWidth, height := s.offsetHeight }] ∧
    (downloadStatsImage s .success).downloads =
      [{ filename := "wallet-stats-" ++ jsSliceTo8 ws.address ++ ".png",
         mime := "image/png" }] := by
  simp [downloadStatsImage, h1, h2]

/-- C8 witness: a concrete successful export; the filename takes the first
eight characters of the loaded address. -/
theorem export_success_artifact_witness :
    ((downloadStatsImage
        { stats := some exampleStats, cardMounted := true, buttonFound := true,
          buttonDisplay := "", isGeneratingImage := false, offsetWidth := 672,
          offsetHeight := 480, error := "" } .success).captures =
      [{ backgroundColor := "#000000", scale := 2, useCORS := true,
         allowTaint := true, width := 672, height := 480 }] ∧
    (downloadStatsImage
        { stats := some exampleStats, cardMounted := true, buttonFound := true,
          buttonDisplay := "", isGeneratingImage := false, offsetWidth := 672,
          offsetHeight := 480, error := "" } .success).downloads =
      [{ filename := "wallet-stats-" ++ jsSliceTo8 exampleStats.address ++ ".png",
         mime := "image/png" }]) ∧
    jsSliceTo8 exampleStats.address = "0x123456" :=
  ⟨export_success_artifact
      { stats := some exampleStats, cardMounted := true, buttonFound := true,
        buttonDisplay := "", isGeneratingImage := false, offsetWidth := 672,
        offsetHeight := 480, error := "" } exampleStats rfl rfl,
    by decide!⟩

/-- C10: when no stats are loaded or the card node is unmounted, the export
guard returns immediately: the whole trace is the unchanged state with no
capture request, no download, and nothing logged — in particular the
in-progress flag is not set and the save button is not hidden. -/
theorem export_guard_frame (s : ExportState) (cap : CaptureOutcome)
    (h : s.stats = none ∨ s.cardMounted = false) :
    downloadStatsImage s cap =
      { final := s, captures := [], downloads := [], loggedError := false } := by
  cases h with
  | inl h1 => simp [downloadStatsImage, h1]
  | inr h1 =>
      cases hs : s.stats with
      | none => simp [downloadStatsImage, hs]
      | some ws => simp [downloadStatsImage, hs, h1]

/-- C10 witness: a concrete call with stats loaded but the card unmounted. -/
theorem export_guard_frame_witness :
    downloadStatsImage
        { stats := some exampleStats, cardMounted := false, buttonFound := true,
          buttonDisplay := "", isGeneratingImage := false, offsetWidth := 672,
          offsetHeight := 480, error := "" } .success =
      { final :=
          { stats := some exampleStats, cardMounted := false, buttonFound := true,
            buttonDisplay := "", isGeneratingImage := false, offsetWidth := 672,
            offsetHeight := 480, error := "" },
        captures := [], downloads := [], loggedError := false } :=
  export_guard_frame
    { stats := some exampleStats, cardMounted := false, buttonFound := true,
      buttonDisplay := "", isGeneratingImage := false, offsetWidth := 672,
      offsetHeight := 480, error := "" } .success (Or.inr rfl)

/-- C6 counterexample: the claim keys the abbreviation on the MAGNITUDE of
the input, which would format the numeric input `-1500` as `"-1.50K"`.  The
source compares the signed value (`number >= 1000`), so `-1500` falls
through to the plain branch and formats as `"-1500.00"`. -/
theorem formatNumber_ignores_magnitude :
    formatNumber (.ofNum (.finite (-1500))) = "-1500.00" ∧
    specFormatNumber (-1500) = "-1.50K" ∧
    ("-1500.00" : String) ≠ "-1.50K" := by
  refine ⟨?_, ?_, ?_⟩ <;> decide!

/-- C6 amended: the thresholds compare the SIGNED value, and divisions are
binary64 divisions: for `x ≥ 1,000,000` the result is `(x / 1,000,000)`
fixed to two decimals with suffix `M`, for `1,000 ≤ x < 1,000,000` it is
`(x / 1,000)` fixed to two decimals with suffix `K`, and otherwise the value
itself fixed to two decimals; in particular `950 ↦ "950.00"`,
`1500 ↦ "1.50K"` and `2500000 ↦ "2.50M"` (there the claim's magnitude rule
agrees, since those inputs are nonnegative). -/
theorem formatNumber_signed_thresholds (q : ℚ) :
    ((1000000 ≤ q →
        formatNumberCore (.finite q) =
          toFixed2 (jsDivConst (.finite q) 1000000) ++ "M") ∧
      (1000 ≤ q → q < 1000000 →
        formatNumberCore (.finite q) =
          toFixed2 (jsDivConst (.finite q) 1000) ++ "K") ∧
      (q < 1000 → formatNumberCore (.finite q) = toFixed2 (.finite q))) ∧
    (formatNumber (.ofNum (.finite 950)) = "950.00" ∧
      formatNumber (.ofNum (.finite 1500)) = "1.50K" ∧
      formatNumber (.ofNum (.finite 2500000)) = "2.50M") := by
  refine ⟨⟨?_, ?_, ?_⟩, by decide!, by decide!, by decide!⟩
  · intro h
    simp [formatNumberCore, jsGe, h]
  · intro h1 h2
    simp [formatNumberCore, jsGe, h1, not_le.mpr h2]
  · intro h
    simp [formatNumberCore, jsGe, not_le.mpr h,
      not_le.mpr (lt_trans h (by norm_num : (1000 : ℚ) < 1000000))]

/-- C6 amended witness: the K branch at the concrete input `1500`. -/
theorem formatNumber_signed_thresholds_witness :
    formatNumberCore (.finite 1500) =
      toFixed2 (jsDivConst (.finite 1500) 1000) ++ "K" :=
  (formatNumber_signed_thresholds 1500).1.2.1 (by norm_num) (by norm_num)

/-- C9: `formatNumber` on a string argument is total — it returns a string
for every input and cannot throw (it is a Lean function) — and on every
string whose numeric head is absent (`parseFloat` yields `NaN`) the result
is the string `"NaN"`: the `NaN` comparisons are false and
`NaN.toFixed(2)` prints `"NaN"`. -/
theorem formatNumber_nonNumeric_NaN (v : String) (h : parseFloat v = .nan) :
    formatNumber (.ofStr v) = "NaN" := by
  simp [formatNumber, h, formatNumberCore, jsGe, toFixed2]

/-- C9 witness: the concrete non-numeric input `"hello"`. -/
theorem formatNumber_nonNumeric_NaN_witness :
    formatNumber (.ofStr "hello") = "NaN" :=
  formatNumber_nonNumeric_NaN "hello" (by decide!)

/-- C7 counterexample: the claim demands the displayed fee equal
`total_volume × 0.01` under ARBITRARY-PRECISION parsing of the decimal
string.  The source computes `parseFloat(stats.total_volume) * 0.01` in
binary64.  For `total_volume = "99999.999999999999999"` the exact fee is
`999.99999999999999999`, whose magnitude is below `1000`, so the
arbitrary-precision reading formats it as `"1000.00"`; `parseFloat` rounds
the volume up to the double `100000`, the double product is exactly `1000`,
and the source displays `"1.00K"`. -/
theorem fee_double_rounding_diverges :
    feeDisplay
        { address := addrAAAA, total_volume := "99999.999999999999999",
          total_trades := 0, buy_count := 0, sell_count := 0,
          first_trade := 0, last_trade := 0 } = "1.00K" ∧
    specEstimatedFee "99999.999999999999999" = some "1000.00" ∧
    some ("1.00K" : String) ≠ some ("1000.00" : String) := by
  refine ⟨?_, ?_, ?_⟩ <;> decide!

/-- C7 amended: the displayed fee is `formatNumber` of the binary64 product
`parseFloat(total_volume) * 0.01` — `total_volume` is parsed by `parseFloat`
into a native double, not with arbitrary precision — and on the spec's
example `total_volume = "824.309202265870747275"` it displays `"8.24"`
(1% of the volume to two decimals). -/
theorem fee_display_is_double_product :
    (∀ ws : WalletStats,
      feeDisplay ws =
        formatNumberCore (jsMul0_01 (parseFloat ws.total_volume))) ∧
    feeDisplay exampleStats = "8.24" := by
  exact ⟨fun ws => rfl, by decide!⟩
